import Mathlib

/-!
Shallow embedding of the HRPONR-Backend ecommerce service
(`src/BackendEcommerce.py`) and verification of its specified behaviour.

The service exposes four operations over two document collections,
`products` and `orders`:

* `create_product` (not needed by any claim here),
* `list_products` (lines 147-207): name/size filtering, offset/limit
  pagination, projection to `{id, name, price}`,
* `create_order` (lines 209-239): ObjectId parsing, an existence check of
  the referenced products, then insertion of the order document,
* `get_user_orders` (lines 241-313): per-user listing with a best-effort
  join against the product collection and a recomputed total.

Modelling decisions:

* The document store is modelled as in-memory lists in insertion order
  (`List Product`, `List OrderDoc`); MongoDB's natural order for `find`
  with `skip`/`limit` is the list order with `List.drop`/`List.take`.
* A BSON `ObjectId` is modelled by its string form; validity
  (`isValidObjectId`) is the 24-hex-character shape that `ObjectId(...)`
  accepts, and an invalid shape raises, which the handler's generic
  `except Exception` clause turns into an HTTP 500.
* Python floats (prices, totals) are modelled as rationals `ℚ`; the
  claims under proof concern which items contribute to a total, not
  IEEE-754 rounding.
* Timestamps and store-generated ids are inputs (`now`, `newId`) because
  they come from the clock and the store, outside the handler's logic.
* HTTP errors are a `(status, detail)` pair mirroring `HTTPException`.
-/

/-- One entry of a product's `sizes` sequence (pydantic model `SizeInfo`,
lines 55-57). -/
structure SizeInfo where
  size : String
  quantity : Int
  deriving Repr, DecidableEq

/-- A stored product document (inserted by `create_product`, lines 131-136):
`_id` (store-generated, modelled as `id`), `name`, `price`, `sizes`.
The `created_at` timestamp is never read by any handler and is omitted. -/
structure Product where
  id : String
  name : String
  price : ℚ
  sizes : List SizeInfo
  deriving Repr, DecidableEq

/-- One entry of an order's `items` sequence as stored
(`{"productId": ..., "qty": ...}`, line 226). -/
structure OrderItemDoc where
  productId : String
  qty : Int
  deriving Repr, DecidableEq

/-- A stored order document (lines 224-229) together with its
store-generated `_id` (modelled as `id`). -/
structure OrderDoc where
  id : String
  userId : String
  items : List OrderItemDoc
  created_at : Nat
  status : String
  deriving Repr, DecidableEq

/-- An `HTTPException`: status code and detail message. -/
structure HTTPError where
  status : Nat
  detail : String
  deriving Repr, DecidableEq

/-- One requested order line (pydantic model `OrderItem`, lines 78-80).
The request model has exactly the fields `productId` and `qty`: a price
field cannot occur in a parsed request. -/
structure OrderItem where
  productId : String
  qty : Int
  deriving Repr, DecidableEq

/-- An order-creation request body (pydantic model `OrderCreate`,
lines 82-84). -/
structure OrderCreate where
  userId : String
  items : List OrderItem
  deriving Repr, DecidableEq

/-- `bson.ObjectId` accepts a 24-character hexadecimal string
(either case); anything else raises `InvalidId`. -/
def isHexChar (c : Char) : Bool :=
  c.isDigit || (Char.ofNat 97 ≤ c && c ≤ Char.ofNat 102) ||
    (Char.ofNat 65 ≤ c && c ≤ Char.ofNat 70)

/-- Whether a string has the shape `ObjectId(...)` accepts (line 217 and
line 268 construct `ObjectId`s from item productIds). -/
def isValidObjectId (s : String) : Bool :=
  s.length == 24 && s.toList.all isHexChar

/-- The pagination record `{next, limit, previous}` returned by both list
endpoints (pydantic model `PaginationInfo`, lines 69-72). -/
structure PaginationInfo where
  next : Option String
  limit : Int
  previous : Option Int
  deriving Repr, DecidableEq

/-- The pagination helper pattern shared by `list_products`
(lines 186-198) and `get_user_orders` (lines 291-304):
`next` is `str(offset + limit)` when `offset + limit < total_count`, else
`None`; `previous` is `max(0, offset - limit)` when `offset > 0`, else
`None`; `limit` is echoed back. Pure and total on all integers. -/
def paginationInfo (offset limit total_count : Int) : PaginationInfo :=
  { next := if offset + limit < total_count then some (toString (offset + limit)) else none
    limit := limit
    previous := if offset > 0 then some (max 0 (offset - limit)) else none }

/-- The `limit` query parameter of both list endpoints:
`Query(10, ge=1, le=100)` (lines 151 and 245). `none` models an omitted
parameter; FastAPI rejects an out-of-range value with a 422 validation
error before the handler runs, and never clamps it. -/
def parseLimit : Option Int → Except HTTPError Int
  | none => .ok 10
  | some v => if 1 ≤ v ∧ v ≤ 100 then .ok v else .error ⟨422, "limit out of range"⟩

/-- The `offset` query parameter of both list endpoints:
`Query(0, ge=0)` (lines 152 and 246). -/
def parseOffset : Option Int → Except HTTPError Int
  | none => .ok 0
  | some v => if 0 ≤ v then .ok v else .error ⟨422, "offset out of range"⟩

/-- The response shape of one listed product (lines 177-182): exactly the
fields `id`, `name`, `price`. There is no `sizes` field in this record,
mirroring the source comment "sizes are not included in output". -/
structure ProductOut where
  id : String
  name : String
  price : ℚ
  deriving Repr, DecidableEq

/-- The `GET /products` response (lines 200-203). -/
structure ProductsListResponse where
  data : List ProductOut
  page : PaginationInfo
  deriving Repr, DecidableEq

/-- Whether the first character list occurs at the start of the second. -/
def startsWithChars : List Char → List Char → Bool
  | [], _ => true
  | _ :: _, [] => false
  | p :: ps, c :: cs => p == c && startsWithChars ps cs

/-- Whether the first character list occurs contiguously anywhere in the
second. -/
def occursIn (pat : List Char) : List Char → Bool
  | [] => startsWithChars pat []
  | c :: cs => startsWithChars pat (c :: cs) || occursIn pat cs

/-- ASCII lower-casing of one character (case folding as the regex
option `"i"` applies it to the ASCII names in play). -/
def lowerChar (c : Char) : Char :=
  if 65 ≤ c.toNat ∧ c.toNat ≤ 90 then Char.ofNat (c.toNat + 32) else c

/-- The name filter (line 163): Mongo `{"$regex": name, "$options": "i"}`,
a case-insensitive regex search anywhere in the name. For patterns free
of regex metacharacters (the shape exercised by the spec) this is
case-insensitive substring containment, which is how it is modelled. -/
def nameMatches (pattern nm : String) : Bool :=
  occursIn (pattern.toList.map lowerChar) (nm.toList.map lowerChar)

/-- The size filter (line 167): Mongo `{"sizes.size": size}` matches a
document whose `sizes` array contains an entry whose `size` field equals
the filter string exactly. -/
def sizeMatches (s : String) (p : Product) : Bool :=
  p.sizes.any (fun e => e.size == s)

/-- The filter query built by `list_products` (lines 159-167). Python's
`if name:` / `if size:` treat both an absent parameter and an empty
string as "no filter". -/
def productFilter (nm sz : Option String) (p : Product) : Bool :=
  (match nm with
   | none => true
   | some n => if n == "" then true else nameMatches n p.name) &&
  (match sz with
   | none => true
   | some s => if s == "" then true else sizeMatches s p)

/-- `list_products` (lines 148-203): counts the documents matching the
filter, pages through them with `skip(offset).limit(limit)`, projects
each to `{id, name, price}`, and attaches the pagination record.
`offset` and `limit` have already passed the `Query` validation
(`offset ≥ 0`, `1 ≤ limit ≤ 100`), so `Int.toNat` is exact on them. -/
def list_products (store : List Product) (nm sz : Option String)
    (limit offset : Int) : ProductsListResponse :=
  let filtered := store.filter (productFilter nm sz)
  let total_count : Int := filtered.length
  let window := (filtered.drop offset.toNat).take limit.toNat
  { data := window.map (fun p => { id := p.id, name := p.name, price := p.price })
    page := paginationInfo offset limit total_count }

/-- The source's local `product_ids` (line 217): the requested ids, one
per line item, duplicates included. -/
def product_ids (order : OrderCreate) : List String :=
  order.items.map (fun item => item.productId)

/-- The source's local `existing_products` (line 218):
`find({"_id": {"$in": product_ids}})`. `$in` is set membership, so each
stored document whose id is among the requested ids is returned once. -/
def existing_products (products : List Product) (ids : List String) : List Product :=
  products.filter (fun p => ids.contains p.id)

/-- The source's local `order_doc` (lines 224-229) together with the
store-generated id. The request's `OrderItem` carries only `productId`
and `qty`, so no requested price can reach the document. -/
def order_doc (order : OrderCreate) (now : Nat) (newId : String) : OrderDoc :=
  { id := newId
    userId := order.userId
    items := order.items.map (fun item => { productId := item.productId, qty := item.qty })
    created_at := now
    status := "created" }

/-- `create_order` (lines 211-239). Steps, in source order:
1. `product_ids = [ObjectId(item.productId) for item in order.items]`
   (line 217): if any productId is not a valid ObjectId shape this raises
   `bson.errors.InvalidId`, which is not an `HTTPException`, so the
   generic `except Exception` clause (lines 237-239) converts it to a 500
   whose detail is `str(e)` (modelled as the fixed string
   "invalid ObjectId"); nothing is inserted.
2. `existing_products = find({"_id": {"$in": product_ids}})` (line 218).
3. If `len(existing_products) != len(product_ids)` (line 220): 400
   "One or more products not found"; nothing is inserted.
4. Otherwise the order document `{userId, items, created_at, status:
   "created"}` is inserted and the store-generated id is returned.
Returns the handler's result together with the orders collection after
the call. -/
def create_order (products : List Product) (orders : List OrderDoc)
    (now : Nat) (newId : String) (order : OrderCreate) :
    Except HTTPError String × List OrderDoc :=
  if order.items.all (fun item => isValidObjectId item.productId) then
    if (existing_products products (product_ids order)).length ≠ (product_ids order).length then
      (.error ⟨400, "One or more products not found"⟩, orders)
    else
      (.ok newId, orders ++ [order_doc order now newId])
  else
    (.error ⟨500, "invalid ObjectId"⟩, orders)

/-- The `productDetails` object of one resolved order line
(lines 272-275): the product's current `name` and the item's
`productId`. -/
structure ProductDetails where
  name : String
  id : String
  deriving Repr, DecidableEq

/-- One output line of a listed order (lines 277-280). -/
structure OrderDetailsOut where
  productDetails : ProductDetails
  qty : Int
  deriving Repr, DecidableEq

/-- One listed order (lines 284-288): id, resolved items, recomputed
total. -/
structure OrderDataOut where
  id : String
  items : List OrderDetailsOut
  total : ℚ
  deriving Repr, DecidableEq

/-- The `GET /orders/{user_id}` response (lines 306-309). -/
structure OrdersListResponse where
  data : List OrderDataOut
  page : PaginationInfo
  deriving Repr, DecidableEq

/-- The body of the per-order item loop of `get_user_orders`
(lines 267-282): an item whose product resolves by `find_one` appends an
output line and adds `product.price * qty` to the running total; an item
whose product no longer exists contributes nothing to either. -/
def processStep (products : List Product) (acc : List OrderDetailsOut × ℚ)
    (item : OrderItemDoc) : List OrderDetailsOut × ℚ :=
  match products.find? (fun p => p.id == item.productId) with
  | some product =>
      (acc.1 ++ [{ productDetails := { name := product.name, id := item.productId }
                   qty := item.qty }],
       acc.2 + product.price * (item.qty : ℚ))
  | none => acc

/-- The per-order item loop of `get_user_orders` (lines 264-282): walks
the stored items in order, accumulating `(order_items, total_amount)`
from `([], 0.0)` through `processStep`. -/
def processItems (products : List Product) (items : List OrderItemDoc) :
    List OrderDetailsOut × ℚ :=
  items.foldl (processStep products) ([], 0)

/-- `get_user_orders` (lines 243-309): filters the orders collection by
`userId` exactly, counts the matches, pages with
`skip(offset).limit(limit)`, and maps each order in the window through
the item-resolution loop. Stored productIds are assumed well-formed
ObjectId strings (every document inserted by `create_order` satisfies
this; line 268 would otherwise raise into the 500 handler). -/
def get_user_orders (products : List Product) (orders : List OrderDoc)
    (user_id : String) (limit offset : Int) : OrdersListResponse :=
  let filtered := orders.filter (fun o => o.userId == user_id)
  let total_count : Int := filtered.length
  let window := (filtered.drop offset.toNat).take limit.toNat
  { data := window.map (fun order_doc =>
      let resolved := processItems products order_doc.items
      { id := order_doc.id, items := resolved.1, total := resolved.2 })
    page := paginationInfo offset limit total_count }

/-- Claim C3: for all inputs with `limit ∈ [1,100]`, `offset ≥ 0` and
`total_count ≥ 0`, the pagination helper returns `next = offset+limit`
rendered as a string exactly when `offset + limit < total_count`
(absent otherwise), `previous` present exactly when `offset > 0`, in
which case it equals `max(0, offset-limit)`, and `limit` echoed back
unchanged. `paginationInfo` is a total function on `Int`, so the helper
is pure and total on this (and every) input domain. -/
theorem paginationInfo_spec (offset limit total_count : Int)
    (hl1 : 1 ≤ limit) (hl2 : limit ≤ 100) (ho : 0 ≤ offset) (ht : 0 ≤ total_count) :
    ((paginationInfo offset limit total_count).next.isSome ↔
        offset + limit < total_count) ∧
    (offset + limit < total_count →
        (paginationInfo offset limit total_count).next = some (toString (offset + limit))) ∧
    ((paginationInfo offset limit total_count).previous.isSome ↔ 0 < offset) ∧
    (0 < offset →
        (paginationInfo offset limit total_count).previous = some (max 0 (offset - limit))) ∧
    (paginationInfo offset limit total_count).limit = limit := by
  refine ⟨?_, fun h => ?_, ?_, fun h => ?_, rfl⟩
  · by_cases h : offset + limit < total_count <;> simp [paginationInfo, h]
  · simp [paginationInfo, h]
  · by_cases h : 0 < offset <;> simp [paginationInfo, h]
  · simp [paginationInfo, h]

/-- Witness for the claim C3 theorem at `offset = 5`, `limit = 10`,
`total_count = 20`. -/
theorem paginationInfo_spec_witness :
    ((paginationInfo 5 10 20).next.isSome ↔ (5 : Int) + 10 < 20) ∧
    ((5 : Int) + 10 < 20 →
        (paginationInfo 5 10 20).next = some (toString ((5 : Int) + 10))) ∧
    ((paginationInfo 5 10 20).previous.isSome ↔ (0 : Int) < 5) ∧
    ((0 : Int) < 5 →
        (paginationInfo 5 10 20).previous = some (max 0 (5 - 10))) ∧
    (paginationInfo 5 10 20).limit = 10 :=
  paginationInfo_spec 5 10 20 (by decide) (by decide) (by decide) (by decide)

/-- Claim C10: for both list endpoints, an omitted `limit` defaults to 10
and an omitted `offset` defaults to 0; a supplied value outside
`limit ∈ [1,100]` or `offset ≥ 0` is rejected at the interface with a
validation error, and an accepted value is passed through unchanged
(never clamped). -/
theorem query_param_defaults_and_rejection (v u : Int) :
    parseLimit none = .ok 10 ∧
    parseOffset none = .ok 0 ∧
    (¬(1 ≤ v ∧ v ≤ 100) → parseLimit (some v) = .error ⟨422, "limit out of range"⟩) ∧
    ((1 ≤ v ∧ v ≤ 100) → parseLimit (some v) = .ok v) ∧
    (¬0 ≤ u → parseOffset (some u) = .error ⟨422, "offset out of range"⟩) ∧
    (0 ≤ u → parseOffset (some u) = .ok u) := by
  refine ⟨rfl, rfl, fun h => ?_, fun h => ?_, fun h => ?_, fun h => ?_⟩ <;>
    simp [parseLimit, parseOffset, h]

/-- Witness for the claim C10 theorem: defaults, an in-range value passed
through, and out-of-range values rejected. -/
theorem query_param_defaults_and_rejection_witness :
    parseLimit none = .ok 10 ∧
    parseOffset none = .ok 0 ∧
    parseLimit (some 101) = .error ⟨422, "limit out of range"⟩ ∧
    parseLimit (some 50) = .ok 50 ∧
    parseOffset (some (-1)) = .error ⟨422, "offset out of range"⟩ ∧
    parseOffset (some 7) = .ok 7 :=
  ⟨(query_param_defaults_and_rejection 101 (-1)).1,
   (query_param_defaults_and_rejection 101 (-1)).2.1,
   (query_param_defaults_and_rejection 101 (-1)).2.2.1 (by decide),
   (query_param_defaults_and_rejection 50 7).2.2.2.1 (by decide),
   (query_param_defaults_and_rejection 101 (-1)).2.2.2.2.1 (by decide),
   (query_param_defaults_and_rejection 50 7).2.2.2.2.2 (by decide)⟩

/-- Claim C9: an order-creation request with an empty items list
succeeds: the `ObjectId` parse loop and the existence check are vacuous
(zero requested ids, zero found products, `0 = 0`), the order is
inserted with an empty items list, and the generated id is returned —
no validation error rejects an itemless order. -/
theorem create_order_empty_items (products : List Product) (orders : List OrderDoc)
    (now : Nat) (newId userId : String) :
    create_order products orders now newId { userId := userId, items := [] } =
      (.ok newId,
       orders ++ [{ id := newId, userId := userId, items := [],
                    created_at := now, status := "created" }]) := by
  simp [create_order, product_ids, existing_products, order_doc]

/-- Claim C6: `list_products` projects every matching product to exactly
the fields `{id, name, price}` (the output record `ProductOut` has no
`sizes` field, so sizes are never present), returns at most `limit`
products after skipping `offset` of the filtered store in its natural
order, and the name filter matches case-insensitively: a product created
with name "Shirt" appears in a listing filtered by name "shirt" with its
name and price unchanged. -/
theorem list_products_projection_and_window (store : List Product)
    (nm sz : Option String) (limit offset : Int) (hl : 1 ≤ limit) :
    (list_products store nm sz limit offset).data =
      (((store.filter (productFilter nm sz)).drop offset.toNat).take limit.toNat).map
        (fun p => { id := p.id, name := p.name, price := p.price }) ∧
    ((list_products store nm sz limit offset).data.length : Int) ≤ limit ∧
    list_products
        [{ id := "p1", name := "Shirt", price := (19.99 : ℚ),
           sizes := [{ size := "M", quantity := 5 }] }]
        (some "shirt") none 10 0 =
      { data := [{ id := "p1", name := "Shirt", price := (19.99 : ℚ) }],
        page := { next := none, limit := 10, previous := none } } := by
  refine ⟨rfl, ?_, by rfl⟩
  have h1 : (list_products store nm sz limit offset).data.length ≤ limit.toNat := by
    simp [list_products]
  omega

/-- Witness for the claim C6 theorem on a one-product store. -/
theorem list_products_projection_and_window_witness :
    (list_products
        [{ id := "p1", name := "Shirt", price := (19.99 : ℚ),
           sizes := [{ size := "M", quantity := 5 }] }]
        (some "shirt") none 10 0).data =
      ((([{ id := "p1", name := "Shirt", price := (19.99 : ℚ),
            sizes := [{ size := "M", quantity := 5 }] }].filter
            (productFilter (some "shirt") none)).drop (Int.toNat 0)).take (Int.toNat 10)).map
        (fun p => { id := p.id, name := p.name, price := p.price }) ∧
    (((list_products
        [{ id := "p1", name := "Shirt", price := (19.99 : ℚ),
           sizes := [{ size := "M", quantity := 5 }] }]
        (some "shirt") none 10 0).data.length : Int) ≤ 10) ∧
    list_products
        [{ id := "p1", name := "Shirt", price := (19.99 : ℚ),
           sizes := [{ size := "M", quantity := 5 }] }]
        (some "shirt") none 10 0 =
      { data := [{ id := "p1", name := "Shirt", price := (19.99 : ℚ) }],
        page := { next := none, limit := 10, previous := none } } :=
  list_products_projection_and_window
    [{ id := "p1", name := "Shirt", price := (19.99 : ℚ),
       sizes := [{ size := "M", quantity := 5 }] }]
    (some "shirt") none 10 0 (by decide)

/-- Claim C7: with a (non-empty) size filter, a product is included in
the listing only if its `sizes` sequence contains an entry whose `size`
string exactly equals the filter value; in particular a product whose
sizes are `[{size := "S", ..}]` is excluded from a listing filtered by
size "M". (Python's `if size:` treats the empty string as an absent
filter, hence the non-emptiness hypothesis.) -/
theorem list_products_size_filter_exact (store : List Product) (s : String)
    (limit offset : Int) (hs : s ≠ "") :
    (∀ q ∈ (list_products store none (some s) limit offset).data,
      ∃ p ∈ store, p.id = q.id ∧ p.name = q.name ∧ p.price = q.price ∧
        ∃ e ∈ p.sizes, e.size = s) ∧
    (list_products
        [{ id := "p2", name := "A", price := 1,
           sizes := [{ size := "S", quantity := 3 }] }]
        none (some "M") 10 0).data = [] := by
  refine ⟨?_, by rfl⟩
  intro q hq
  simp only [list_products, List.mem_map] at hq
  obtain ⟨p, hp, rfl⟩ := hq
  have hp' : p ∈ store.filter (productFilter none (some s)) :=
    List.take_subset _ _ (by exact hp) |> fun h => List.drop_subset _ _ h
  rw [List.mem_filter] at hp'
  obtain ⟨hmem, hfilt⟩ := hp'
  refine ⟨p, hmem, rfl, rfl, rfl, ?_⟩
  simp only [productFilter, Bool.true_and] at hfilt
  rw [if_neg (by simpa using hs)] at hfilt
  simpa [sizeMatches, List.any_eq_true] using hfilt

/-- Witness for the claim C7 theorem at the filter value "M". -/
theorem list_products_size_filter_exact_witness :
    (∀ q ∈ (list_products
        [{ id := "p3", name := "B", price := 2,
           sizes := [{ size := "M", quantity := 1 }] }] none (some "M") 10 0).data,
      ∃ p ∈ ([{ id := "p3", name := "B", price := (2 : ℚ),
                sizes := [{ size := "M", quantity := 1 }] }] : List Product),
        p.id = q.id ∧ p.name = q.name ∧ p.price = q.price ∧
          ∃ e ∈ p.sizes, e.size = "M") ∧
    (list_products
        [{ id := "p2", name := "A", price := 1,
           sizes := [{ size := "S", quantity := 3 }] }]
        none (some "M") 10 0).data = [] :=
  list_products_size_filter_exact
    [{ id := "p3", name := "B", price := 2, sizes := [{ size := "M", quantity := 1 }] }]
    "M" 10 0 (by decide)

/-- Claim C8: every successful `create_order` inserts an order document
with status exactly "created", the creation timestamp, the request's
`userId`, and items that are exactly the requested `(productId, qty)`
pairs in request order. The request's `OrderItem` model has only
`productId` and `qty` fields, so no price from the request can be copied
onto the order (structurally: `order_doc` reads nothing else). -/
theorem create_order_success_doc_shape (products : List Product) (orders : List OrderDoc)
    (now : Nat) (newId : String) (order : OrderCreate) (res : String)
    (h : (create_order products orders now newId order).1 = .ok res) :
    res = newId ∧
    (create_order products orders now newId order).2 =
      orders ++ [{ id := newId
                   userId := order.userId
                   items := order.items.map
                     (fun item => { productId := item.productId, qty := item.qty })
                   created_at := now
                   status := "created" }] := by
  by_cases hv : (order.items.all fun item => isValidObjectId item.productId) = true
  · by_cases hlen :
        (existing_products products (product_ids order)).length ≠ (product_ids order).length
    · simp [create_order, hv, hlen] at h
    · simp only [create_order, hv, if_true, hlen, if_false, if_neg hlen] at h ⊢
      simp only [Except.ok.injEq] at h
      exact ⟨h.symm, by simp [order_doc]⟩
  · simp [create_order, hv] at h

/-- Witness for the claim C8 theorem: a one-item order against a
one-product store. -/
theorem create_order_success_doc_shape_witness :
    "ffffffffffffffffffffffff" = "ffffffffffffffffffffffff" ∧
    (create_order
        [{ id := "0123456789abcdef01234567", name := "A", price := 1, sizes := [] }]
        [] 7 "ffffffffffffffffffffffff"
        { userId := "u1", items := [{ productId := "0123456789abcdef01234567", qty := 2 }] }).2 =
      [] ++ [{ id := "ffffffffffffffffffffffff"
               userId := "u1"
               items := ([{ productId := "0123456789abcdef01234567", qty := 2 }] :
                   List OrderItem).map
                 (fun item => { productId := item.productId, qty := item.qty })
               created_at := 7
               status := "created" }] :=
  create_order_success_doc_shape
    [{ id := "0123456789abcdef01234567", name := "A", price := 1, sizes := [] }]
    [] 7 "ffffffffffffffffffffffff"
    { userId := "u1", items := [{ productId := "0123456789abcdef01234567", qty := 2 }] }
    "ffffffffffffffffffffffff" rfl

/-- Helper for claim C4: when every stored product id is distinct (the
store guarantees `_id` uniqueness) and some requested id is absent from
the store, the `$in` result is strictly shorter than the requested id
list, whatever duplicates the request contains. -/
theorem existing_products_length_lt (products : List Product) (order : OrderCreate)
    (hnodup : (products.map Product.id).Nodup)
    (item : OrderItem) (hitem : item ∈ order.items)
    (hnone : ∀ p ∈ products, p.id ≠ item.productId) :
    (existing_products products (product_ids order)).length < (product_ids order).length := by
  have hsub : List.Sublist (existing_products products (product_ids order)) products :=
    List.filter_sublist products
  have hFnodup : ((existing_products products (product_ids order)).map Product.id).Nodup :=
    List.Nodup.sublist (List.Sublist.map Product.id hsub) hnodup
  have hFsub : (existing_products products (product_ids order)).map Product.id ⊆
      product_ids order := by
    intro x hx
    obtain ⟨p, hp, rfl⟩ := List.mem_map.mp hx
    have hc := (List.mem_filter.mp hp).2
    simpa using hc
  have hxids : item.productId ∈ product_ids order :=
    List.mem_map.mpr ⟨item, hitem, rfl⟩
  have hxnot : item.productId ∉ (existing_products products (product_ids order)).map Product.id := by
    intro hx
    obtain ⟨p, hp, hpid⟩ := List.mem_map.mp hx
    exact hnone p ((List.mem_filter.mp hp).1) hpid
  have hcons :
      (item.productId :: (existing_products products (product_ids order)).map Product.id).Nodup :=
    List.nodup_cons.mpr ⟨hxnot, hFnodup⟩
  have hsubset :
      (item.productId :: (existing_products products (product_ids order)).map Product.id) ⊆
        product_ids order :=
    List.cons_subset.mpr ⟨hxids, hFsub⟩
  have hle := List.Subperm.length_le (List.Nodup.subperm hcons hsubset)
  simpa [List.length_map] using Nat.lt_of_succ_le (by simpa using hle)

/-- Claim C4: an order-creation request in which every productId is
well-formed but at least one does not resolve to a stored product is
rejected with 400 "One or more products not found", and nothing is
inserted into the orders collection (the all-or-nothing check precedes
the insert, so the returned collection is unchanged). -/
theorem create_order_missing_product_rejected (products : List Product)
    (orders : List OrderDoc) (now : Nat) (newId : String) (order : OrderCreate)
    (hnodup : (products.map Product.id).Nodup)
    (hvalid : ∀ item ∈ order.items, isValidObjectId item.productId = true)
    (hmiss : ∃ item ∈ order.items, ∀ p ∈ products, p.id ≠ item.productId) :
    create_order products orders now newId order =
      (.error ⟨400, "One or more products not found"⟩, orders) := by
  obtain ⟨item, hitem, hnone⟩ := hmiss
  have hv : (order.items.all fun it => isValidObjectId it.productId) = true := by
    simpa [List.all_eq_true] using hvalid
  have hlt := existing_products_length_lt products order hnodup item hitem hnone
  simp [create_order, hv, Nat.ne_of_lt hlt]

/-- Witness for the claim C4 theorem: a request naming a well-formed but
unknown id against a one-product store. -/
theorem create_order_missing_product_rejected_witness :
    create_order
        [{ id := "0123456789abcdef01234567", name := "A", price := 1, sizes := [] }]
        [] 0 "ffffffffffffffffffffffff"
        { userId := "u1", items := [{ productId := "aaaaaaaaaaaaaaaaaaaaaaaa", qty := 1 }] } =
      (.error ⟨400, "One or more products not found"⟩, []) :=
  create_order_missing_product_rejected
    [{ id := "0123456789abcdef01234567", name := "A", price := 1, sizes := [] }]
    [] 0 "ffffffffffffffffffffffff"
    { userId := "u1", items := [{ productId := "aaaaaaaaaaaaaaaaaaaaaaaa", qty := 1 }] }
    (by decide) (by decide) (by decide)

/-- Claim C2, counterexample: an order request whose productId "xyz" is
not a valid ObjectId shape is rejected with HTTP 500 (the `InvalidId`
exception reaches the generic `except Exception` handler, lines
237-239), not with the 400 validation failure the claim asserts; no
order is inserted. -/
theorem create_order_malformed_id_counterexample :
    (create_order [] [] 0 "ffffffffffffffffffffffff"
        { userId := "u1", items := [{ productId := "xyz", qty := 1 }] }).1 =
      Except.error { status := 500, detail := "invalid ObjectId" } ∧
    (create_order [] [] 0 "ffffffffffffffffffffffff"
        { userId := "u1", items := [{ productId := "xyz", qty := 1 }] }).1 ≠
      Except.error { status := 400, detail := "One or more products not found" } ∧
    (create_order [] [] 0 "ffffffffffffffffffffffff"
        { userId := "u1", items := [{ productId := "xyz", qty := 1 }] }).2 = [] := by
  refine ⟨rfl, ?_, rfl⟩
  intro h
  rw [show (create_order [] [] 0 "ffffffffffffffffffffffff"
      { userId := "u1", items := [{ productId := "xyz", qty := 1 }] }).1 =
      Except.error { status := 500, detail := "invalid ObjectId" } from rfl] at h
  simp at h

/-- Claim C2 as amended: a request containing an item whose productId is
not a valid store identifier shape is rejected before any existence
check runs and no order is inserted, but with a 500 internal error (the
`bson.errors.InvalidId` raised on line 217 is not an `HTTPException`, so
the generic handler on lines 237-239 maps it to status 500), not a
400-equivalent validation failure. -/
theorem create_order_malformed_id_500 (products : List Product)
    (orders : List OrderDoc) (now : Nat) (newId : String) (order : OrderCreate)
    (h : ∃ item ∈ order.items, isValidObjectId item.productId = false) :
    create_order products orders now newId order =
      (.error ⟨500, "invalid ObjectId"⟩, orders) := by
  obtain ⟨item, hitem, hbad⟩ := h
  have hv : ¬((order.items.all fun it => isValidObjectId it.productId) = true) := by
    simp only [List.all_eq_true]
    intro hall
    exact absurd (hall item hitem) (by simp [hbad])
  simp [create_order, hv]

/-- Witness for the amended claim C2 theorem at the malformed id
"xyz". -/
theorem create_order_malformed_id_500_witness :
    create_order [] [] 0 "ffffffffffffffffffffffff"
        { userId := "u1", items := [{ productId := "xyz", qty := 1 }] } =
      (.error ⟨500, "invalid ObjectId"⟩, []) :=
  create_order_malformed_id_500 [] [] 0 "ffffffffffffffffffffffff"
    { userId := "u1", items := [{ productId := "xyz", qty := 1 }] }
    ⟨{ productId := "xyz", qty := 1 }, by decide, by decide⟩

/-- Claim C1, evaluated on the code at its failing input: a store holding
exactly one product and a request listing that product's id twice. The
claim (and the spec's edge-case policy) says the request succeeds with
both line items preserved, because the existence check is said to run on
the distinct id set. The code instead compares `len(existing_products)`
— the `$in` query returns each matching document once, so 1 here —
against `len(product_ids)` — the requested list with duplicates, so 2 —
and rejects the request with 400 "One or more products not found"
(lines 220-221), inserting nothing. The error message is false at this
input: every referenced product exists, contradicting the code's own
stated intent ("Validate that all products exist", line 216). -/
theorem create_order_duplicate_id_rejected :
    create_order
        [{ id := "0123456789abcdef01234567", name := "A", price := 1, sizes := [] }]
        [] 0 "ffffffffffffffffffffffff"
        { userId := "u1",
          items := [{ productId := "0123456789abcdef01234567", qty := 1 },
                    { productId := "0123456789abcdef01234567", qty := 1 }] } =
      (.error ⟨400, "One or more products not found"⟩, []) := by
  rfl

/-- The output line produced for one stored order item when its product
still resolves (`find_one`, lines 268-280), `none` when it does not. -/
def resolved_line (products : List Product) (item : OrderItemDoc) : Option OrderDetailsOut :=
  (products.find? (fun p => p.id == item.productId)).map
    (fun product => { productDetails := { name := product.name, id := item.productId }
                      qty := item.qty })

/-- The contribution of one stored order item to the recomputed total
(`product.price * qty` at read time, line 282) when its product still
resolves, `none` when it does not. -/
def resolved_amount (products : List Product) (item : OrderItemDoc) : Option ℚ :=
  (products.find? (fun p => p.id == item.productId)).map
    (fun product => product.price * (item.qty : ℚ))

/-- The item loop from any accumulator: it appends exactly the resolvable
items' output lines and adds exactly the sum of their read-time
amounts. -/
theorem foldl_processStep (products : List Product) (items : List OrderItemDoc) :
    ∀ acc : List OrderDetailsOut × ℚ,
      items.foldl (processStep products) acc =
        (acc.1 ++ items.filterMap (resolved_line products),
         acc.2 + (items.filterMap (resolved_amount products)).sum) := by
  induction items with
  | nil => intro acc; simp
  | cons item rest ih =>
      intro acc
      rw [List.foldl_cons, ih]
      cases hfind : products.find? (fun p => p.id == item.productId) with
      | none =>
          simp [processStep, hfind, resolved_line, resolved_amount, List.filterMap_cons]
      | some product =>
          simp [processStep, hfind, resolved_line, resolved_amount, List.filterMap_cons,
            add_assoc]

/-- The item loop characterised: output lines are the resolvable items'
lines in stored order, and the total is the sum of their read-time
amounts. -/
theorem processItems_eq (products : List Product) (items : List OrderItemDoc) :
    processItems products items =
      (items.filterMap (resolved_line products),
       (items.filterMap (resolved_amount products)).sum) := by
  rw [processItems, foldl_processStep]
  simp

/-- Claim C5: every order returned by `get_user_orders` comes from a
stored order of that user, its output item list is exactly the stored
items whose productId still resolves (each unresolvable line item is
dropped, contributing nothing, with no error), and its total is the sum
over the resolvable items of the product's current price times the
item's quantity — the price at read time, not at order-creation time
(the order document stores no price at all). -/
theorem get_user_orders_best_effort (products : List Product) (orders : List OrderDoc)
    (user_id : String) (limit offset : Int) (od : OrderDataOut)
    (hod : od ∈ (get_user_orders products orders user_id limit offset).data) :
    ∃ o ∈ orders, o.userId = user_id ∧ od.id = o.id ∧
      od.items = o.items.filterMap (resolved_line products) ∧
      od.total = (o.items.filterMap (resolved_amount products)).sum := by
  simp only [get_user_orders, List.mem_map] at hod
  obtain ⟨o, ho, rfl⟩ := hod
  have ho' : o ∈ orders.filter (fun o => o.userId == user_id) :=
    List.drop_subset _ _ (List.take_subset _ _ ho)
  rw [List.mem_filter] at ho'
  refine ⟨o, ho'.1, by simpa using ho'.2, rfl, ?_, ?_⟩
  · simp [processItems_eq]
  · simp [processItems_eq]

/-- Witness for the claim C5 theorem: an order holding one resolvable
item (qty 2 at current price 3) and one item whose product no longer
exists; the returned order lists only the resolvable line and totals
6. -/
theorem get_user_orders_best_effort_witness :
    ∃ o ∈ ([{ id := "o1", userId := "u1",
              items := [{ productId := "0123456789abcdef01234567", qty := 2 },
                        { productId := "ffffffffffffffffffffffff", qty := 3 }],
              created_at := 0, status := "created" }] : List OrderDoc),
      o.userId = "u1" ∧
      ({ id := "o1",
         items := [{ productDetails := { name := "A", id := "0123456789abcdef01234567" }
                     qty := 2 }],
         total := 6 } : OrderDataOut).id = o.id ∧
      ({ id := "o1",
         items := [{ productDetails := { name := "A", id := "0123456789abcdef01234567" }
                     qty := 2 }],
         total := 6 } : OrderDataOut).items =
        o.items.filterMap (resolved_line
          [{ id := "0123456789abcdef01234567", name := "A", price := 3, sizes := [] }]) ∧
      ({ id := "o1",
         items := [{ productDetails := { name := "A", id := "0123456789abcdef01234567" }
                     qty := 2 }],
         total := 6 } : OrderDataOut).total =
        (o.items.filterMap (resolved_amount
          [{ id := "0123456789abcdef01234567", name := "A", price := 3, sizes := [] }])).sum :=
  get_user_orders_best_effort
    [{ id := "0123456789abcdef01234567", name := "A", price := 3, sizes := [] }]
    [{ id := "o1", userId := "u1",
       items := [{ productId := "0123456789abcdef01234567", qty := 2 },
                 { productId := "ffffffffffffffffffffffff", qty := 3 }],
       created_at := 0, status := "created" }]
    "u1" 10 0
    { id := "o1",
      items := [{ productDetails := { name := "A", id := "0123456789abcdef01234567" }
                  qty := 2 }],
      total := 6 }
    (by
      norm_num [get_user_orders, processItems, processStep, paginationInfo,
        List.take_succ_cons, List.take_nil, List.mem_singleton,
        (show Int.toNat 10 = 10 from rfl),
        (by decide : ("0123456789abcdef01234567" : String) ≠ "ffffffffffffffffffffffff")])
